import Mathlib

/-!
# Severn Edge AI firmware — verification of the spec against the source

Shallow embedding of the firmware's core subsystems:

* `crc8` — the CRC-8/MAXIM packet checksum (src/firmware/src/sensor_reader.h)
* the sliding sample window (src/firmware/src/inference.cpp)
* the `SimpleNN` feed-forward inference engine (src/firmware/src/simple_nn.cpp)
* the BLE model-upload command handler (src/firmware/src/main.cpp)
* the flash model store (declared in src/firmware/src/flash_storage.h; its
  implementation file is not part of the sources, so those operations are
  modelled from the spec where noted)

Machine integers are embedded as `Nat` (unsigned, with explicit `% 2^w`
where overflow matters) and `Int` (for `int16_t` sensor values); `float`
arithmetic is idealised over `ℝ` (the normalised sample values over `ℚ`,
cast into `ℝ` at the flattening step, matching the numerically exact
reading of the spec).
-/

-- ============================================================================
-- Configuration constants (src/firmware/src/config.h)
-- ============================================================================

def WINDOW_SIZE : Nat := 100
def WINDOW_STRIDE : Nat := 25
def NN_INPUT_SIZE : Nat := 600
def NN_HIDDEN_SIZE : Nat := 32
def NN_MAX_CLASSES : Nat := 8
def MAX_MODEL_SIZE : Nat := 85000
def SIMPLE_NN_MAGIC : Nat := 0x4E4E4E53

/-- Constant `ACCEL_SCALE` = 8192.0f (exact in binary floating point). -/
def ACCEL_SCALE : ℚ := 8192

/-- Constant `GYRO_SCALE` = 16.4f, idealised as the exact rational 82/5. -/
def GYRO_SCALE : ℚ := 82 / 5

-- Upload state machine constants (src/firmware/src/flash_storage.h)
def UPLOAD_IDLE : Nat := 0
def UPLOAD_RECEIVING : Nat := 1
def UPLOAD_COMPLETE : Nat := 2
def UPLOAD_ERROR : Nat := 3

def STATUS_READY : Nat := 0
def STATUS_RECEIVING : Nat := 1
def STATUS_VALIDATING : Nat := 2
def STATUS_SAVING : Nat := 3
def STATUS_SUCCESS : Nat := 4
def STATUS_ERROR_SIZE : Nat := 10
def STATUS_ERROR_CRC : Nat := 11
def STATUS_ERROR_FLASH : Nat := 12
def STATUS_ERROR_FORMAT : Nat := 13

-- ============================================================================
-- CRC-8/MAXIM (src/firmware/src/sensor_reader.h, `crc8`)
-- ============================================================================

/-- One iteration of `crc8`'s inner bit loop, carrying `(crc, byte)`:
`mix = (crc ^ byte) & 1; crc >>= 1; if (mix) crc ^= 0x8C; byte >>= 1;`. -/
def crc8Step (acc : Nat × Nat) : Nat × Nat :=
  let mix := (acc.1 ^^^ acc.2) &&& 1
  let c := acc.1 >>> 1
  (if mix = 1 then c ^^^ 0x8C else c, acc.2 >>> 1)

/-- Processing one byte of input: the 8-iteration inner loop of `crc8`.
The byte enters as `uint8_t`, i.e. reduced mod 256. -/
def crc8Byte (crc byte : Nat) : Nat :=
  ((List.range 8).foldl (fun acc _ => crc8Step acc) (crc, byte % 256)).1

/-- Function `crc8(data, len)` from sensor_reader.h: bit-wise CRC-8, polynomial 0x8C,
LSB-first, seed 0x00, over the byte list. -/
def crc8 (data : List Nat) : Nat :=
  data.foldl crc8Byte 0

-- ============================================================================
-- Reference CRC-8/MAXIM, following the spec's words: a table-free bit-wise
-- CRC over the message's bit stream, each byte presented LSB-first,
-- polynomial 0x8C, seed 0x00.  (Second definition for the refinement
-- claim C8; to be compared with `crc8` above.)
-- ============================================================================

/-- Reference per-bit CRC-8/MAXIM update: xor the next message bit into the
low bit of the state, shift right, conditionally xor the polynomial. -/
def crcMaximBit (crc bit : Nat) : Nat :=
  let mix := (crc ^^^ bit) &&& 1
  let c := crc >>> 1
  if mix = 1 then c ^^^ 0x8C else c

/-- The bits of one byte, least-significant first. -/
def byteBitsLSB (b : Nat) : List Nat :=
  (List.range 8).map (fun i => b >>> i &&& 1)

/-- Reference CRC-8/MAXIM of a message: fold the per-bit update over the
LSB-first bit stream of the bytes, seed 0x00. -/
def crc8MaximRef (data : List Nat) : Nat :=
  ((data.map byteBitsLSB).flatten).foldl crcMaximBit 0

-- ============================================================================
-- Sensor packet (src/firmware/src/sensor_reader.h `SensorPacket`,
-- src/firmware/src/sensor_lsm9ds1.cpp `LSM9DS1Reader::read`)
-- ============================================================================

/-- Little-endian byte pair of an `int16_t` value (two's complement). -/
def int16Bytes (x : Int) : List Nat :=
  let u := (x % 65536).toNat
  [u % 256, u / 256]

/-- Little-endian byte pair of a `uint16_t` value. -/
def uint16Bytes (x : Nat) : List Nat :=
  [x % 65536 % 256, x % 65536 / 256]

/-- The first 16 bytes of a `SensorPacket` (packed struct layout:
ax, ay, az, gx, gy, gz as int16 LE, then sequence and timestamp as
uint16 LE). -/
def sensorPacketBody (ax ay az gx gy gz : Int) (sequence timestamp : Nat) :
    List Nat :=
  int16Bytes ax ++ int16Bytes ay ++ int16Bytes az ++
  int16Bytes gx ++ int16Bytes gy ++ int16Bytes gz ++
  uint16Bytes sequence ++ uint16Bytes timestamp

/-- The full 17-byte packet as assembled by `LSM9DS1Reader::read`: the body
followed by `packet.crc = crc8((uint8_t*)&packet, 16)`. -/
def lsm9ds1Packet (ax ay az gx gy gz : Int) (sequence timestamp : Nat) :
    List Nat :=
  let body := sensorPacketBody ax ay az gx gy gz sequence timestamp
  body ++ [crc8 body]

-- ============================================================================
-- Sliding sample window (src/firmware/src/inference.cpp)
-- ============================================================================

/-- The window buffer state: `sampleBuffer[WINDOW_SIZE][6]` (rows indexed by
`Nat`, channels 0..5 meaningful) and `sampleIndex` (the fill count). -/
structure InferenceState where
  sampleBuffer : Nat → Nat → ℚ
  sampleIndex : Nat

/-- Initial window state set up by `setupInference`: zeroed buffer,
`sampleIndex = 0`. -/
def initialInferenceState : InferenceState :=
  { sampleBuffer := fun _ _ => 0, sampleIndex := 0 }

/-- Function `addSample` (inference.cpp): if the window is not full, store the six
normalised channels at row `sampleIndex` and increment it; otherwise no-op.
Acceleration channels divide by `ACCEL_SCALE`; gyroscope channels divide by
`GYRO_SCALE` and again by 100. -/
def addSample (s : InferenceState) (ax ay az gx gy gz : Int) :
    InferenceState :=
  if s.sampleIndex < WINDOW_SIZE then
    { sampleBuffer := fun i j =>
        if i = s.sampleIndex then
          if j = 0 then (ax : ℚ) / ACCEL_SCALE
          else if j = 1 then (ay : ℚ) / ACCEL_SCALE
          else if j = 2 then (az : ℚ) / ACCEL_SCALE
          else if j = 3 then (gx : ℚ) / GYRO_SCALE / 100
          else if j = 4 then (gy : ℚ) / GYRO_SCALE / 100
          else if j = 5 then (gz : ℚ) / GYRO_SCALE / 100
          else s.sampleBuffer i j
        else s.sampleBuffer i j,
      sampleIndex := s.sampleIndex + 1 }
  else s

/-- Function `isWindowReady` (inference.cpp): `sampleIndex >= WINDOW_SIZE`. -/
def isWindowReady (s : InferenceState) : Bool :=
  s.sampleIndex ≥ WINDOW_SIZE

/-- Function `slideWindow` (inference.cpp): the sequential copy loop
`for i in [0, keep): buffer[i] = buffer[i + WINDOW_STRIDE]` followed by
`sampleIndex = keep`, with `keep = WINDOW_SIZE - WINDOW_STRIDE`. -/
def slideWindow (s : InferenceState) : InferenceState :=
  let keep := WINDOW_SIZE - WINDOW_STRIDE
  { sampleBuffer :=
      (List.range keep).foldl
        (fun b i => fun i' => if i' = i then b (i + WINDOW_STRIDE) else b i')
        s.sampleBuffer,
    sampleIndex := keep }

-- ============================================================================
-- SimpleNN model and engine (src/firmware/src/simple_nn.h / simple_nn.cpp)
-- ============================================================================

/-- The `struct SimpleNNModel` (simple_nn.h): header words plus flat weight
arrays, embedded as index functions. Labels are byte strings. -/
structure SimpleNNModel where
  magic : Nat
  numClasses : Nat
  inputSize : Nat
  hiddenSize : Nat
  hiddenWeights : Nat → ℝ
  hiddenBias : Nat → ℝ
  outputWeights : Nat → ℝ
  outputBias : Nat → ℝ
  labels : Nat → List Nat

/-- The `SimpleNN` engine state: `modelLoaded`, the adopted class count,
the borrowed weight/label references, and `lastConfidence`. -/
structure SimpleNN where
  modelLoaded : Bool
  numClasses : Nat
  hiddenWeights : Nat → ℝ
  hiddenBias : Nat → ℝ
  outputWeights : Nat → ℝ
  outputBias : Nat → ℝ
  labels : Nat → List Nat
  lastConfidence : ℝ

/-- Constructor `SimpleNN::SimpleNN()`: unloaded engine, zero class count, null weight
references (embedded as the zero function), `lastConfidence = 0`. -/
def SimpleNN.init : SimpleNN :=
  { modelLoaded := false
    numClasses := 0
    hiddenWeights := fun _ => 0
    hiddenBias := fun _ => 0
    outputWeights := fun _ => 0
    outputBias := fun _ => 0
    labels := fun _ => []
    lastConfidence := 0 }

/-- Method `SimpleNN::loadModel` (simple_nn.cpp:37-90): validates magic, the two
fixed dimensions and the class-count range in order; every failing check
executes `modelLoaded = false; return false;` leaving the other fields
untouched; on success it adopts the candidate's fields and sets
`modelLoaded = true`. -/
def SimpleNN.loadModel (nn : SimpleNN) (m : SimpleNNModel) :
    SimpleNN × Bool :=
  if m.magic ≠ SIMPLE_NN_MAGIC then
    ({ nn with modelLoaded := false }, false)
  else if m.inputSize ≠ NN_INPUT_SIZE then
    ({ nn with modelLoaded := false }, false)
  else if m.hiddenSize ≠ NN_HIDDEN_SIZE then
    ({ nn with modelLoaded := false }, false)
  else if m.numClasses < 1 ∨ m.numClasses > NN_MAX_CLASSES then
    ({ nn with modelLoaded := false }, false)
  else
    ({ modelLoaded := true
       numClasses := m.numClasses
       hiddenWeights := m.hiddenWeights
       hiddenBias := m.hiddenBias
       outputWeights := m.outputWeights
       outputBias := m.outputBias
       labels := m.labels
       lastConfidence := nn.lastConfidence }, true)

/-- Method `SimpleNN::relu`: `(x > 0) ? x : 0`. -/
noncomputable def relu (x : ℝ) : ℝ :=
  if x > 0 then x else 0

/-- Method `SimpleNN::denseLayer` (simple_nn.cpp:190-219): for each output neuron
`o`, `bias[o] + Σ_{j<inputSize} input[j] * weights[o*inputSize+j]`, with
optional ReLU. -/
noncomputable def denseLayer (input weights bias : Nat → ℝ)
    (inputSize : Nat) (useRelu : Bool) : Nat → ℝ :=
  fun o =>
    let s := bias o + ∑ j ∈ Finset.range inputSize,
      input j * weights (o * inputSize + j)
    if useRelu then relu s else s

/-- The running-maximum loop of `SimpleNN::softmax` / `SimpleNN::argmax`:
start from `values[0]`, scan indices `1 .. size-1`. -/
noncomputable def maxLoop (values : Nat → ℝ) (size : Nat) : ℝ :=
  ((List.range (size - 1)).map (· + 1)).foldl
    (fun m i => if values i > m then values i else m) (values 0)

/-- Method `SimpleNN::softmax` (simple_nn.cpp:236-256): subtract the running
maximum, exponentiate, normalise by the sum over the `size` entries. -/
noncomputable def softmax (values : Nat → ℝ) (size : Nat) : Nat → ℝ :=
  let maxVal := maxLoop values size
  let sum := ∑ j ∈ Finset.range size, Real.exp (values j - maxVal)
  fun i => Real.exp (values i - maxVal) / sum

/-- Method `SimpleNN::argmax` (simple_nn.cpp:262-274): first maximum wins — the
index only advances on a strictly greater value. -/
noncomputable def argmax (values : Nat → ℝ) (size : Nat) : Nat :=
  (((List.range (size - 1)).map (· + 1)).foldl
    (fun acc i => if values i > acc.2 then (i, values i) else acc)
    (0, values 0)).1

/-- Method `SimpleNN::predict` (simple_nn.cpp:103-175): dense → ReLU → dense →
softmax → argmax; records the winning probability in `lastConfidence`.
Returns `-1` (engine unchanged, probability buffer untouched — embedded as
the zero function) when no model is loaded. -/
noncomputable def SimpleNN.predict (nn : SimpleNN) (input : Nat → ℝ) :
    SimpleNN × Int × (Nat → ℝ) :=
  if nn.modelLoaded = false then
    (nn, -1, fun _ => 0)
  else
    let hidden := denseLayer input nn.hiddenWeights nn.hiddenBias
      NN_INPUT_SIZE true
    let scores := denseLayer hidden nn.outputWeights nn.outputBias
      NN_HIDDEN_SIZE false
    let probs := softmax scores nn.numClasses
    let pred := argmax probs nn.numClasses
    ({ nn with lastConfidence := probs pred }, (pred : Int), probs)

/-- The `flatten` step of `runInference` (inference.cpp:145-150):
`flatInput[i*6+j] = sampleBuffer[i][j]`, i.e. index `k` reads row `k / 6`,
channel `k % 6`. -/
def flattenWindow (s : InferenceState) : Nat → ℝ :=
  fun k => ((s.sampleBuffer (k / 6) (k % 6) : ℚ) : ℝ)

/-- Function `runInference` (inference.cpp:124-177): `-1` with confidence 0 when the
window is not ready; class 0 with confidence 0.5 in fallback mode (no
model loaded); otherwise flatten the window and run `predict`, reporting
`lastConfidence`. Returns the updated engine together with
`(prediction, confidence)`. -/
noncomputable def runInference (s : InferenceState) (nn : SimpleNN) :
    SimpleNN × Int × ℝ :=
  if ¬ isWindowReady s then
    (nn, -1, 0)
  else if nn.modelLoaded = false then
    (nn, 0, 1 / 2)
  else
    let r := nn.predict (flattenWindow s)
    (r.1, r.2.1, r.1.lastConfidence)

-- ============================================================================
-- CRC-32 (declared in flash_storage.h as `calculateCrc32`; implementation
-- file absent from the sources).
-- Modelled from the spec: "`crc32(bytes) -> uint32`: standard CRC-32 over
-- an arbitrary-length buffer" — the reflected polynomial 0xEDB88320,
-- initial value 0xFFFFFFFF, final complement.
-- ============================================================================

/-- One bit step of the standard (reflected) CRC-32. -/
def crc32Bit (crc : Nat) : Nat :=
  if crc &&& 1 = 1 then (crc >>> 1) ^^^ 0xEDB88320 else crc >>> 1

/-- One byte of the standard CRC-32 update. -/
def crc32Byte (crc byte : Nat) : Nat :=
  (List.range 8).foldl (fun c _ => crc32Bit c) (crc ^^^ byte % 256)

/-- Modelled from the spec: `calculateCrc32` — standard CRC-32 with initial
value 0xFFFFFFFF and final complement. -/
def calculateCrc32 (data : List Nat) : Nat :=
  (data.foldl crc32Byte 0xFFFFFFFF) ^^^ 0xFFFFFFFF

-- ============================================================================
-- Flash model store (declared in src/firmware/src/flash_storage.h; the
-- implementation file is absent from the sources, so every operation below
-- is modelled from the spec, §4.3 "Model Store — Upload State Machine").
-- ============================================================================

/-- The committed (active) model record: the decoded `SimpleNNModel`
together with its byte size, class count and labels. -/
structure StoredModelRec where
  model : SimpleNNModel
  modelSize : Nat
  numClasses : Nat

/-- Modelled from the spec: the Model Store's state — the single committed
model (if any), plus the transient upload session (buffer, expected size,
class count, captured labels, contiguous high-water mark, state). -/
structure FlashState where
  stored : Option StoredModelRec
  uploadState : Nat
  uploadBuffer : Nat → Nat
  uploadSize : Nat
  uploadNumClasses : Nat
  uploadLabels : Nat → List Nat
  receivedBytes : Nat

/-- Modelled from the spec: initial store state — no model, `Idle`. -/
def initialFlashState : FlashState :=
  { stored := none
    uploadState := UPLOAD_IDLE
    uploadBuffer := fun _ => 0
    uploadSize := 0
    uploadNumClasses := 0
    uploadLabels := fun _ => []
    receivedBytes := 0 }

/-- Function `getUploadState` (flash_storage.h:121). -/
def getUploadState (fl : FlashState) : Nat :=
  fl.uploadState

/-- Function `hasStoredModel` (flash_storage.h:62). -/
def hasStoredModel (fl : FlashState) : Bool :=
  fl.stored.isSome

/-- Modelled from the spec: `beginModelUpload` — "resets the upload buffer,
records `expectedSize`/`expectedCrc32`/`numClasses` … Transitions to
`Receiving`." The committed model is untouched. -/
def beginModelUpload (fl : FlashState) (totalSize numClasses : Nat) :
    FlashState :=
  { stored := fl.stored
    uploadState := UPLOAD_RECEIVING
    uploadBuffer := fun _ => 0
    uploadSize := totalSize
    uploadNumClasses := numClasses
    uploadLabels := fun _ => []
    receivedBytes := 0 }

/-- Modelled from the spec: `setModelLabel` — records one session label
(captured at Start, attached to the model only on a successful Finish). -/
def setModelLabel (fl : FlashState) (classIndex : Nat) (label : List Nat) :
    FlashState :=
  { fl with uploadLabels := fun i =>
      if i = classIndex then label else fl.uploadLabels i }

/-- Modelled from the spec: `receiveModelChunk` — "Writes `data` into the
model buffer at `offset`; rejects (without transitioning state) if
`offset + len(data)` exceeds `expectedSize`. Updates `receivedBytes` to the
highest contiguous offset written." -/
def receiveModelChunk (fl : FlashState) (data : List Nat)
    (length offset : Nat) : FlashState × Bool :=
  if offset + length > fl.uploadSize then
    (fl, false)
  else
    ({ fl with
        uploadBuffer := fun k =>
          if offset ≤ k ∧ k < offset + length then data.getD (k - offset) 0 % 256
          else fl.uploadBuffer k,
        receivedBytes := max fl.receivedBytes (offset + length) }, true)

/-- Function `getUploadProgress` (flash_storage.h:116): `receivedBytes × 100 /
expectedSize`, clamped to [0, 100] (spec §4.3, Chunk row). -/
def getUploadProgress (fl : FlashState) : Nat :=
  if fl.uploadSize = 0 then 0
  else min 100 (fl.receivedBytes * 100 / fl.uploadSize)

/-- Little-endian `uint32` read from the upload buffer at `off`. -/
def bufU32 (buf : Nat → Nat) (off : Nat) : Nat :=
  buf off % 256 + 256 * (buf (off + 1) % 256) +
  65536 * (buf (off + 2) % 256) + 16777216 * (buf (off + 3) % 256)

/-- IEEE-754 binary32 decoding into `ℝ` (used when the committed byte
buffer is reinterpreted as a `SimpleNNModel`); NaN/Inf patterns, which
have no real counterpart, decode to 0. -/
noncomputable def decodeF32 (bits : Nat) : ℝ :=
  let sign := bits >>> 31 &&& 1
  let e := bits >>> 23 &&& 255
  let frac := bits &&& 0x7FFFFF
  if e = 255 then 0
  else
    let mag : ℝ :=
      if e = 0 then (frac : ℝ) / 2 ^ (23 : Nat) * (2 : ℝ) ^ (-(126 : ℤ))
      else (1 + (frac : ℝ) / 2 ^ (23 : Nat)) * (2 : ℝ) ^ ((e : ℤ) - 127)
  if sign = 1 then -mag else mag

/-- Modelled from the spec: the committed byte buffer reinterpreted as the
`SimpleNNModel` struct (header words at offsets 0/4/8/12, then the flat
float arrays, per the struct layout in simple_nn.h); the labels captured
at Start are attached. -/
noncomputable def decodeSimpleNNModel (buf : Nat → Nat)
    (labels : Nat → List Nat) : SimpleNNModel :=
  { magic := bufU32 buf 0
    numClasses := bufU32 buf 4
    inputSize := bufU32 buf 8
    hiddenSize := bufU32 buf 12
    hiddenWeights := fun k => decodeF32 (bufU32 buf (16 + 4 * k))
    hiddenBias := fun k =>
      decodeF32 (bufU32 buf (16 + 4 * (NN_HIDDEN_SIZE * NN_INPUT_SIZE + k)))
    outputWeights := fun k =>
      decodeF32 (bufU32 buf
        (16 + 4 * (NN_HIDDEN_SIZE * NN_INPUT_SIZE + NN_HIDDEN_SIZE + k)))
    outputBias := fun k =>
      decodeF32 (bufU32 buf
        (16 + 4 * (NN_HIDDEN_SIZE * NN_INPUT_SIZE + NN_HIDDEN_SIZE +
          NN_MAX_CLASSES * NN_HIDDEN_SIZE + k)))
    labels := labels }

/-- Modelled from the spec: the structural header validation performed at
Finish — "Dimension/magic checks on the header embedded in the model
bytes → `FormatError` on failure" — the same magic / dimension / class
range contract the engine's `loadModel` enforces. -/
noncomputable def finishHeaderOk (m : SimpleNNModel) : Bool :=
  m.magic = SIMPLE_NN_MAGIC ∧ m.inputSize = NN_INPUT_SIZE ∧
    m.hiddenSize = NN_HIDDEN_SIZE ∧ 1 ≤ m.numClasses ∧
    m.numClasses ≤ NN_MAX_CLASSES

/-- Modelled from the spec: `finalizeModelUpload` — "Recomputes CRC-32 over
exactly `expectedSize` bytes of the received buffer. Mismatch → `CrcError`,
state → `Error`, buffer discarded" (the committed model untouched); failing
header checks → `FormatError`; "On success: buffer becomes the new active
`NetworkModel`, label strings captured at Start are attached, state →
`Complete`." Returns the new store state and the `UploadStatus` code. -/
noncomputable def finalizeModelUpload (fl : FlashState) (expectedCrc : Nat) :
    FlashState × Nat :=
  let bytes := (List.range fl.uploadSize).map fl.uploadBuffer
  if calculateCrc32 bytes ≠ expectedCrc % 2 ^ 32 then
    ({ fl with
        uploadState := UPLOAD_ERROR
        uploadBuffer := fun _ => 0
        receivedBytes := 0 }, STATUS_ERROR_CRC)
  else
    let m := decodeSimpleNNModel fl.uploadBuffer fl.uploadLabels
    if finishHeaderOk m then
      ({ fl with
          stored := some
            { model := m
              modelSize := fl.uploadSize
              numClasses := fl.uploadNumClasses }
          uploadState := UPLOAD_COMPLETE }, STATUS_SUCCESS)
    else
      ({ fl with uploadState := UPLOAD_ERROR }, STATUS_ERROR_FORMAT)

/-- Function `getStoredSimpleNNModel` (declared in inference.cpp's storage interface;
implementation absent). Modelled from the spec: the committed model, if
any. -/
def getStoredSimpleNNModel (fl : FlashState) : Option SimpleNNModel :=
  fl.stored.map (fun r => r.model)

/-- Function `reloadModel` (inference.cpp:61-88): fetch the stored model and load it
into the engine; false when there is no stored model or `loadModel`
rejects it. -/
def reloadModel (fl : FlashState) (nn : SimpleNN) : SimpleNN × Bool :=
  match getStoredSimpleNNModel fl with
  | none => (nn, false)
  | some m => nn.loadModel m

-- ============================================================================
-- BLE model-upload handler (src/firmware/src/main.cpp, `handleModelUpload`)
-- ============================================================================

/-- Little-endian `uint32` read from a payload list at `off`
(the `memcpy(&x, &data[off], 4)` idiom). -/
def listU32 (data : List Nat) (off : Nat) : Nat :=
  data.getD off 0 % 256 + 256 * (data.getD (off + 1) 0 % 256) +
  65536 * (data.getD (off + 2) 0 % 256) + 16777216 * (data.getD (off + 3) 0 % 256)

/-- The `memchr(&data[offset], 0, len - offset)` scan of the Start label
parser: the position of the first zero byte at or after `offset`, strictly
below `len`; `none` when no terminator exists in bounds. -/
def findNull (data : List Nat) (offset len : Nat) : Option Nat :=
  ((List.range (len - offset)).find?
    (fun k => data.getD (offset + k) 0 % 256 == 0)).map (fun k => offset + k)

/-- The label bytes copied into `safeLabel`: at most 15 bytes starting at
`offset` (`copyLen = min labelLen 15`). -/
def extractLabel (data : List Nat) (offset copyLen : Nat) : List Nat :=
  (List.range copyLen).map (fun k => data.getD (offset + k) 0 % 256)

/-- The Start label-parsing loop (main.cpp:222-239):
`for (i = 0; i < uploadNumClasses && offset < len; i++)` — scan for a null
terminator within the remaining payload; absence aborts with failure
(`false`); otherwise record the (truncated) label and advance past the
terminator. `rem` is the remaining iteration count `numClasses - i`. -/
def parseLabels (data : List Nat) (len : Nat) :
    Nat → Nat → Nat → FlashState → FlashState × Bool
  | 0, _, _, fl => (fl, true)
  | rem + 1, i, offset, fl =>
    if offset < len then
      match findNull data offset len with
      | none => (fl, false)
      | some tpos =>
        let labelLen := tpos - offset
        let lbl := extractLabel data offset (min labelLen 15)
        parseLabels data len rem (i + 1) (offset + labelLen + 1)
          (setModelLabel fl i lbl)
    else (fl, true)

/-- The combined firmware state touched by `handleModelUpload`: the model
store, the inference engine, the three session globals
(`uploadExpectedSize`, `uploadExpectedCrc`, `uploadNumClasses`,
main.cpp:126-128), and the last status record written to the
model-status characteristic (`updateModelStatus`). -/
structure MainState where
  flash : FlashState
  nn : SimpleNN
  uploadExpectedSize : Nat
  uploadExpectedCrc : Nat
  uploadNumClasses : Nat
  lastStatus : Nat × Nat × Nat

/-- Function `updateModelStatus(state, progress, status)` (main.cpp:173-181):
records the 4-byte status packet (reserved byte omitted). -/
def updateModelStatus (st : MainState) (state progress status : Nat) :
    MainState :=
  { st with lastStatus := (state, progress, status) }

/-- The `case 0x01` START branch of `handleModelUpload` (main.cpp:198-243).
Note the session globals are overwritten *before* the size check. -/
noncomputable def handleStart (st : MainState) (data : List Nat) : MainState :=
  if data.length < 10 then
    updateModelStatus st UPLOAD_ERROR 0 STATUS_ERROR_FORMAT
  else
    let st := { st with
      uploadExpectedSize := listU32 data 1
      uploadExpectedCrc := listU32 data 5
      uploadNumClasses := data.getD 9 0 % 256 }
    if st.uploadExpectedSize > MAX_MODEL_SIZE then
      updateModelStatus st UPLOAD_ERROR 0 STATUS_ERROR_SIZE
    else
      let fl := beginModelUpload st.flash st.uploadExpectedSize
        st.uploadNumClasses
      let r := parseLabels data data.length st.uploadNumClasses 0 10 fl
      if r.2 then
        updateModelStatus { st with flash := r.1 } UPLOAD_RECEIVING 0
          STATUS_RECEIVING
      else
        updateModelStatus { st with flash := r.1 } UPLOAD_ERROR 0
          STATUS_ERROR_FORMAT

/-- The `case 0x02` CHUNK branch of `handleModelUpload` (main.cpp:245-262). -/
noncomputable def handleChunk (st : MainState) (data : List Nat) : MainState :=
  if data.length < 5 then
    updateModelStatus st UPLOAD_ERROR 0 STATUS_ERROR_FORMAT
  else
    let offset := listU32 data 1
    let chunkLen := data.length - 5
    let r := receiveModelChunk st.flash (data.drop 5) chunkLen offset
    if r.2 then
      updateModelStatus { st with flash := r.1 } UPLOAD_RECEIVING
        (getUploadProgress r.1) STATUS_RECEIVING
    else
      updateModelStatus { st with flash := r.1 } UPLOAD_ERROR
        (getUploadProgress r.1) STATUS_ERROR_FORMAT

/-- The `case 0x03` FINISH branch of `handleModelUpload` (main.cpp:264-287):
finalize against `uploadExpectedCrc`; on success reload the engine from
the store; on any failure only the status record changes besides the store
transition performed by `finalizeModelUpload` itself. -/
noncomputable def handleFinish (st : MainState) : MainState :=
  let r := finalizeModelUpload st.flash st.uploadExpectedCrc
  if r.2 = STATUS_SUCCESS then
    let l := reloadModel r.1 st.nn
    if l.2 then
      updateModelStatus { st with flash := r.1, nn := l.1 } UPLOAD_COMPLETE
        100 STATUS_SUCCESS
    else
      updateModelStatus { st with flash := r.1, nn := l.1 } UPLOAD_ERROR
        100 STATUS_ERROR_FORMAT
  else
    updateModelStatus { st with flash := r.1 } UPLOAD_ERROR 100 r.2

/-- Function `handleModelUpload` (main.cpp:186-300): dispatch on the command byte.
`case 0x04` CANCEL (main.cpp:289-293) only writes the status record — it
calls no store operation, so the store (upload state machine, partial
buffer, session metadata) is left exactly as it was. Unknown commands and
empty payloads change nothing. -/
noncomputable def handleModelUpload (st : MainState) (data : List Nat) :
    MainState :=
  if data.length < 1 then st
  else
    let cmd := data.getD 0 0 % 256
    if cmd = 0x01 then handleStart st data
    else if cmd = 0x02 then handleChunk st data
    else if cmd = 0x03 then handleFinish st
    else if cmd = 0x04 then
      updateModelStatus st UPLOAD_IDLE 0 STATUS_READY
    else st

/-- Folding a list of upload command payloads through `handleModelUpload`
(successive writes to the upload characteristic). -/
noncomputable def runCommands (st : MainState) : List (List Nat) → MainState
  | [] => st
  | p :: ps => runCommands (handleModelUpload st p) ps

/-- The predicate "no command in the sequence ever reports
`STATUS_SUCCESS`": no successful `Finish` commit happens along the run. -/
def noSuccessRun (st : MainState) : List (List Nat) → Prop := fun ps =>
  match ps with
  | [] => True
  | p :: ps =>
    (handleModelUpload st p).lastStatus.2.2 ≠ STATUS_SUCCESS ∧
      noSuccessRun (handleModelUpload st p) ps

/-- The initial combined state after `setup()`: empty store, fresh engine,
zeroed session globals. -/
def initialMainState : MainState :=
  { flash := initialFlashState
    nn := SimpleNN.init
    uploadExpectedSize := 0
    uploadExpectedCrc := 0
    uploadNumClasses := 0
    lastStatus := (UPLOAD_IDLE, 0, STATUS_READY) }

-- ============================================================================
-- Concrete fixtures (used by counterexamples and witnesses)
-- ============================================================================

/-- A window state whose fill count is at the full window size. -/
def fullWindowState : InferenceState :=
  { sampleBuffer := fun i j => (i * 6 + j : ℚ), sampleIndex := WINDOW_SIZE }

/-- A structurally valid model with all weights and biases zero and `n`
classes. -/
def zeroModel (n : Nat) : SimpleNNModel :=
  { magic := SIMPLE_NN_MAGIC
    numClasses := n
    inputSize := NN_INPUT_SIZE
    hiddenSize := NN_HIDDEN_SIZE
    hiddenWeights := fun _ => 0
    hiddenBias := fun _ => 0
    outputWeights := fun _ => 0
    outputBias := fun _ => 0
    labels := fun _ => [] }

/-- A candidate model failing the magic-number check. -/
def badMagicModel : SimpleNNModel :=
  { zeroModel 1 with magic := 0 }

/-- An engine that has successfully loaded `zeroModel 1`. -/
def loadedNN : SimpleNN :=
  (SimpleNN.init.loadModel (zeroModel 1)).1

/-- A well-formed Start payload: declared size 16, CRC 0, zero classes. -/
def startPayload16 : List Nat :=
  [1, 16, 0, 0, 0, 0, 0, 0, 0, 0]

/-- A Start payload shorter than the 10-byte fixed header. -/
def shortStartPayload : List Nat :=
  [1, 2, 3]

/-- A Start payload declaring total size 85001 > `MAX_MODEL_SIZE`. -/
def oversizeStartPayload : List Nat :=
  [1, 0x09, 0x4C, 0x01, 0x00, 0, 0, 0, 0, 1]

/-- A Start payload declaring 2 labels where the second label has no null
terminator within the payload. -/
def badLabelStartPayload : List Nat :=
  [1, 16, 0, 0, 0, 0, 0, 0, 0, 2, 65, 0, 66]

/-- A Start payload declaring 1 label, correctly null-terminated. -/
def goodStartPayload : List Nat :=
  [1, 16, 0, 0, 0, 0, 0, 0, 0, 1, 65, 0]

-- ============================================================================
-- Helper lemmas
-- ============================================================================

/-- The window invariant of the spec: `0 ≤ filled ≤ WINDOW_SIZE`. -/
def windowInv (s : InferenceState) : Prop :=
  0 ≤ s.sampleIndex ∧ s.sampleIndex ≤ WINDOW_SIZE

/-- Pointwise description of `slideWindow`'s sequential copy loop: because
every write at row `i` reads row `i + WINDOW_STRIDE > i`, which no earlier
iteration has touched, the loop realises the parallel shift. -/
theorem slideWindow_foldl (b : Nat → Nat → ℚ) (k : Nat) :
    (List.range k).foldl
      (fun b i => fun i' => if i' = i then b (i + WINDOW_STRIDE) else b i') b
      = fun i' => if i' < k then b (i' + WINDOW_STRIDE) else b i' := by
  induction k with
  | zero => funext i'; simp
  | succ k ih =>
    rw [List.range_succ, List.foldl_append, ih]
    funext i'
    simp only [List.foldl_cons, List.foldl_nil]
    by_cases h1 : i' = k
    · subst h1
      have : ¬ (i' + WINDOW_STRIDE < i') := by omega
      simp [this, Nat.lt_succ_iff]
    · by_cases h2 : i' < k
      · have : i' < k + 1 := by omega
        simp [h1, h2, this]
      · have : ¬ (i' < k + 1) := by omega
        simp [h1, h2, this]

-- ============================================================================
-- C9 — window invariant and append/slide contract
-- ============================================================================

/-- C9: the invariant `0 ≤ filled ≤ WINDOW_SIZE` holds initially and is
preserved by `addSample` and `slideWindow`; `addSample` is a no-op (state
unchanged) once `filled = WINDOW_SIZE`, otherwise it stores the six
normalised channels at the next free row and increments the fill count by
one; `slideWindow` resets the fill count to
`WINDOW_SIZE - WINDOW_STRIDE = 75`. -/
theorem C9_window_invariant :
    windowInv initialInferenceState ∧
    (∀ s ax ay az gx gy gz, windowInv s →
      windowInv (addSample s ax ay az gx gy gz)) ∧
    (∀ s, windowInv (slideWindow s)) ∧
    (∀ s ax ay az gx gy gz, s.sampleIndex = WINDOW_SIZE →
      addSample s ax ay az gx gy gz = s) ∧
    (∀ s ax ay az gx gy gz, s.sampleIndex < WINDOW_SIZE →
      (addSample s ax ay az gx gy gz).sampleIndex = s.sampleIndex + 1 ∧
      (addSample s ax ay az gx gy gz).sampleBuffer s.sampleIndex 0
        = (ax : ℚ) / ACCEL_SCALE ∧
      (addSample s ax ay az gx gy gz).sampleBuffer s.sampleIndex 1
        = (ay : ℚ) / ACCEL_SCALE ∧
      (addSample s ax ay az gx gy gz).sampleBuffer s.sampleIndex 2
        = (az : ℚ) / ACCEL_SCALE ∧
      (addSample s ax ay az gx gy gz).sampleBuffer s.sampleIndex 3
        = (gx : ℚ) / GYRO_SCALE / 100 ∧
      (addSample s ax ay az gx gy gz).sampleBuffer s.sampleIndex 4
        = (gy : ℚ) / GYRO_SCALE / 100 ∧
      (addSample s ax ay az gx gy gz).sampleBuffer s.sampleIndex 5
        = (gz : ℚ) / GYRO_SCALE / 100) ∧
    (∀ s, (slideWindow s).sampleIndex = WINDOW_SIZE - WINDOW_STRIDE) := by
  refine ⟨⟨Nat.zero_le _, by simp [initialInferenceState, WINDOW_SIZE]⟩,
    ?_, ?_, ?_, ?_, ?_⟩
  · intro s ax ay az gx gy gz hinv
    unfold addSample windowInv at *
    by_cases h : s.sampleIndex < WINDOW_SIZE
    · simp [h]; omega
    · simp [h]; omega
  · intro s
    unfold slideWindow windowInv
    exact ⟨Nat.zero_le _, by simp [WINDOW_SIZE, WINDOW_STRIDE]⟩
  · intro s ax ay az gx gy gz hfull
    unfold addSample
    have h : ¬ s.sampleIndex < WINDOW_SIZE := by omega
    simp [h]
  · intro s ax ay az gx gy gz hlt
    unfold addSample
    simp [hlt]
  · intro s
    unfold slideWindow
    simp

/-- Witness for C9 at concrete states: the full window is a no-op target
for `addSample`, the empty window increments, `slideWindow` resets to 75. -/
theorem C9_witness :
    (windowInv fullWindowState ∧
      windowInv (addSample fullWindowState 1 2 3 4 5 6)) ∧
    addSample fullWindowState 1 2 3 4 5 6 = fullWindowState ∧
    ((initialInferenceState.sampleIndex < WINDOW_SIZE) ∧
      (addSample initialInferenceState 1 2 3 4 5 6).sampleIndex = 1) ∧
    (slideWindow fullWindowState).sampleIndex = WINDOW_SIZE - WINDOW_STRIDE := by
  have hfullInv : windowInv fullWindowState :=
    ⟨Nat.zero_le _, by norm_num [fullWindowState]⟩
  have hlt : initialInferenceState.sampleIndex < WINDOW_SIZE := by
    norm_num [initialInferenceState, WINDOW_SIZE]
  exact ⟨⟨hfullInv, C9_window_invariant.2.1 fullWindowState 1 2 3 4 5 6 hfullInv⟩,
    C9_window_invariant.2.2.2.1 fullWindowState 1 2 3 4 5 6 rfl,
    ⟨hlt, (C9_window_invariant.2.2.2.2.1 initialInferenceState 1 2 3 4 5 6 hlt).1⟩,
    C9_window_invariant.2.2.2.2.2 fullWindowState⟩

-- ============================================================================
-- C5 — sliding a full window
-- ============================================================================

/-- C5: after a full window `s0..s99`, `slideWindow` leaves `s25..s99` at
rows 0..74 (all six channels in order), sets the fill count to 75, and the
next `addSample` stores its six normalised channels at row 75, advancing
the fill count to 76. -/
theorem C5_slideWindow (s : InferenceState) (_h : s.sampleIndex = WINDOW_SIZE)
    (ax ay az gx gy gz : Int) :
    (∀ i < 75, ∀ j < 6,
      (slideWindow s).sampleBuffer i j = s.sampleBuffer (i + 25) j) ∧
    (slideWindow s).sampleIndex = 75 ∧
    (addSample (slideWindow s) ax ay az gx gy gz).sampleIndex = 76 ∧
    (addSample (slideWindow s) ax ay az gx gy gz).sampleBuffer 75 0
      = (ax : ℚ) / ACCEL_SCALE ∧
    (addSample (slideWindow s) ax ay az gx gy gz).sampleBuffer 75 1
      = (ay : ℚ) / ACCEL_SCALE ∧
    (addSample (slideWindow s) ax ay az gx gy gz).sampleBuffer 75 2
      = (az : ℚ) / ACCEL_SCALE ∧
    (addSample (slideWindow s) ax ay az gx gy gz).sampleBuffer 75 3
      = (gx : ℚ) / GYRO_SCALE / 100 ∧
    (addSample (slideWindow s) ax ay az gx gy gz).sampleBuffer 75 4
      = (gy : ℚ) / GYRO_SCALE / 100 ∧
    (addSample (slideWindow s) ax ay az gx gy gz).sampleBuffer 75 5
      = (gz : ℚ) / GYRO_SCALE / 100 := by
  have hbuf : ∀ i' j, (slideWindow s).sampleBuffer i' j =
      if i' < 75 then s.sampleBuffer (i' + 25) j else s.sampleBuffer i' j := by
    intro i' j
    show ((List.range (WINDOW_SIZE - WINDOW_STRIDE)).foldl
      (fun b i => fun i'' => if i'' = i then b (i + WINDOW_STRIDE) else b i'')
      s.sampleBuffer) i' j = _
    rw [slideWindow_foldl]
    simp only []
    rw [apply_ite (fun g : Nat → ℚ => g j)]
    norm_num [WINDOW_SIZE, WINDOW_STRIDE]
  have hidx : (slideWindow s).sampleIndex = 75 := rfl
  refine ⟨?_, hidx, ?_, ?_, ?_, ?_, ?_, ?_, ?_⟩
  · intro i hi j _
    rw [hbuf]
    simp [hi]
  all_goals simp [addSample, hidx, hbuf, WINDOW_SIZE]

/-- Witness for C5 at the concrete full window: row 0 of the slid window
holds sample 25, and the appended sample lands at row 75. -/
theorem C5_witness :
    fullWindowState.sampleIndex = WINDOW_SIZE ∧
    (slideWindow fullWindowState).sampleBuffer 0 0
      = fullWindowState.sampleBuffer 25 0 ∧
    (slideWindow fullWindowState).sampleIndex = 75 ∧
    (addSample (slideWindow fullWindowState) 8192 0 0 0 0 0).sampleBuffer 75 0
      = (8192 : ℚ) / ACCEL_SCALE := by
  have h := C5_slideWindow fullWindowState rfl 8192 0 0 0 0 0
  exact ⟨rfl, h.1 0 (by norm_num) 0 (by norm_num), h.2.1, h.2.2.2.1⟩

-- ============================================================================
-- C4 — fallback inference
-- ============================================================================

/-- C4: with a ready window (`filled = WINDOW_SIZE`) and no model loaded,
`runInference` returns class index 0 and confidence exactly 0.5 (and the
engine state is unchanged), rather than an error value. -/
theorem C4_fallback (s : InferenceState) (nn : SimpleNN)
    (hs : s.sampleIndex = WINDOW_SIZE) (hm : nn.modelLoaded = false) :
    runInference s nn = (nn, 0, 1 / 2) := by
  unfold runInference isWindowReady
  simp [hs, hm]

/-- Witness for C4: the concrete full window and the freshly constructed
(unloaded) engine. -/
theorem C4_witness :
    fullWindowState.sampleIndex = WINDOW_SIZE ∧
    SimpleNN.init.modelLoaded = false ∧
    runInference fullWindowState SimpleNN.init = (SimpleNN.init, 0, 1 / 2) :=
  ⟨rfl, rfl, C4_fallback fullWindowState SimpleNN.init rfl rfl⟩

-- ============================================================================
-- C1 — loadModel failure behaviour
-- ============================================================================

/-- Counterexample to C1 as stated: an engine that has successfully loaded
a valid model, then receives a candidate with a bad magic number.
`loadModel` reports failure, but `isModelLoaded()` is `false` afterwards —
the engine does NOT remain in its previous loaded state
(simple_nn.cpp:41 executes `modelLoaded = false` on the failure path). -/
theorem C1_counterexample :
    (SimpleNN.init.loadModel (zeroModel 1)).2 = true ∧
    loadedNN.modelLoaded = true ∧
    (loadedNN.loadModel badMagicModel).2 = false ∧
    (loadedNN.loadModel badMagicModel).1.modelLoaded = false := by
  refine ⟨?_, ?_, ?_, ?_⟩ <;>
    simp [loadedNN, SimpleNN.loadModel, zeroModel, badMagicModel,
      SimpleNN.init, SIMPLE_NN_MAGIC, NN_INPUT_SIZE, NN_HIDDEN_SIZE,
      NN_MAX_CLASSES]

/-- C1 (amended): on any failing check (wrong magic, `inputSize ≠ 600`,
`hiddenSize ≠ 32`, or `numClasses` outside 1..8), `loadModel` returns
`false` and sets the engine to UNLOADED (`modelLoaded = false`), leaving
every other engine field unchanged: the bad candidate's weights are never
adopted, but a previously loaded model is dropped rather than kept. -/
theorem C1_loadModel_failure_unloads (nn : SimpleNN) (m : SimpleNNModel)
    (h : m.magic ≠ SIMPLE_NN_MAGIC ∨ m.inputSize ≠ NN_INPUT_SIZE ∨
      m.hiddenSize ≠ NN_HIDDEN_SIZE ∨ m.numClasses < 1 ∨
      m.numClasses > NN_MAX_CLASSES) :
    nn.loadModel m = ({ nn with modelLoaded := false }, false) := by
  unfold SimpleNN.loadModel
  by_cases h1 : m.magic ≠ SIMPLE_NN_MAGIC
  · rw [if_pos h1]
  · rw [if_neg h1]
    by_cases h2 : m.inputSize ≠ NN_INPUT_SIZE
    · rw [if_pos h2]
    · rw [if_neg h2]
      by_cases h3 : m.hiddenSize ≠ NN_HIDDEN_SIZE
      · rw [if_pos h3]
      · rw [if_neg h3]
        by_cases h4 : m.numClasses < 1 ∨ m.numClasses > NN_MAX_CLASSES
        · rw [if_pos h4]
        · exfalso
          rcases h with h | h | h | h | h
          · exact h1 h
          · exact h2 h
          · exact h3 h
          · exact h4 (Or.inl h)
          · exact h4 (Or.inr h)

/-- Witness for C1 (amended): the loaded engine rejecting the bad-magic
candidate ends up unloaded with its other fields intact. -/
theorem C1_witness :
    (badMagicModel.magic ≠ SIMPLE_NN_MAGIC ∨
      badMagicModel.inputSize ≠ NN_INPUT_SIZE ∨
      badMagicModel.hiddenSize ≠ NN_HIDDEN_SIZE ∨
      badMagicModel.numClasses < 1 ∨
      badMagicModel.numClasses > NN_MAX_CLASSES) ∧
    loadedNN.loadModel badMagicModel
      = ({ loadedNN with modelLoaded := false }, false) := by
  have hbad : badMagicModel.magic ≠ SIMPLE_NN_MAGIC := by
    simp [badMagicModel, zeroModel, SIMPLE_NN_MAGIC]
  exact ⟨Or.inl hbad,
    C1_loadModel_failure_unloads loadedNN badMagicModel (Or.inl hbad)⟩

-- ============================================================================
-- Upload handler helper lemmas
-- ============================================================================

/-- The Start label parser only touches the session labels: the upload
state and the committed model survive it unchanged. -/
theorem parseLabels_preserves (data : List Nat) (len : Nat) :
    ∀ (fuel i off : Nat) (fl : FlashState),
      (parseLabels data len fuel i off fl).1.uploadState = fl.uploadState ∧
      (parseLabels data len fuel i off fl).1.stored = fl.stored := by
  intro fuel
  induction fuel with
  | zero => intro i off fl; exact ⟨rfl, rfl⟩
  | succ n ih =>
    intro i off fl
    unfold parseLabels
    by_cases h : off < len
    · rw [if_pos h]
      cases hf : findNull data off len with
      | none => exact ⟨rfl, rfl⟩
      | some t =>
        simp only []
        have := ih (i + 1) (off + (t - off) + 1) (setModelLabel fl i
          (extractLabel data off (min (t - off) 15)))
        exact ⟨this.1, this.2⟩
    · rw [if_neg h]
      exact ⟨rfl, rfl⟩

/-- Any command other than Start leaves the three session globals
(`uploadExpectedSize`, `uploadExpectedCrc`, `uploadNumClasses`)
unchanged. -/
theorem nonStart_preserves_globals (st : MainState) (q : List Nat)
    (h : q.getD 0 0 % 256 ≠ 1) :
    (handleModelUpload st q).uploadExpectedSize = st.uploadExpectedSize ∧
    (handleModelUpload st q).uploadExpectedCrc = st.uploadExpectedCrc ∧
    (handleModelUpload st q).uploadNumClasses = st.uploadNumClasses := by
  unfold handleModelUpload
  by_cases h0 : q.length < 1
  · rw [if_pos h0]; exact ⟨rfl, rfl, rfl⟩
  · rw [if_neg h0, if_neg h]
    by_cases h2 : q.getD 0 0 % 256 = 2
    · rw [if_pos h2]
      unfold handleChunk
      by_cases hl : q.length < 5
      · rw [if_pos hl]; exact ⟨rfl, rfl, rfl⟩
      · rw [if_neg hl]
        dsimp only
        split <;> exact ⟨rfl, rfl, rfl⟩
    · rw [if_neg h2]
      by_cases h3 : q.getD 0 0 % 256 = 3
      · rw [if_pos h3]
        unfold handleFinish
        dsimp only
        split
        · split <;> exact ⟨rfl, rfl, rfl⟩
        · exact ⟨rfl, rfl, rfl⟩
      · rw [if_neg h3]
        by_cases h4 : q.getD 0 0 % 256 = 4
        · rw [if_pos h4]; exact ⟨rfl, rfl, rfl⟩
        · rw [if_neg h4]; exact ⟨rfl, rfl, rfl⟩

-- ============================================================================
-- C10 — Start size rejection is not atomic w.r.t. session metadata
-- ============================================================================

/-- C10: a Start command whose declared size exceeds `MAX_MODEL_SIZE` is
rejected with `SizeError`, but only after the three session globals have
already been overwritten with the rejected command's values
(main.cpp:204-206 precede the size check at main.cpp:214); the stale
values then persist across any non-Start command. -/
theorem C10_size_reject_after_metadata_overwrite (st : MainState)
    (data : List Nat) (hcmd : data.getD 0 0 % 256 = 1)
    (hlen : 10 ≤ data.length) (hsz : MAX_MODEL_SIZE < listU32 data 1) :
    (handleModelUpload st data).lastStatus
      = (UPLOAD_ERROR, 0, STATUS_ERROR_SIZE) ∧
    (handleModelUpload st data).uploadExpectedSize = listU32 data 1 ∧
    (handleModelUpload st data).uploadExpectedCrc = listU32 data 5 ∧
    (handleModelUpload st data).uploadNumClasses = data.getD 9 0 % 256 ∧
    (handleModelUpload st data).flash = st.flash ∧
    (handleModelUpload st data).nn = st.nn ∧
    (∀ q : List Nat, q.getD 0 0 % 256 ≠ 1 →
      (handleModelUpload (handleModelUpload st data) q).uploadExpectedSize
        = listU32 data 1 ∧
      (handleModelUpload (handleModelUpload st data) q).uploadExpectedCrc
        = listU32 data 5 ∧
      (handleModelUpload (handleModelUpload st data) q).uploadNumClasses
        = data.getD 9 0 % 256) := by
  have h0 : ¬ data.length < 1 := by omega
  have hstep : handleModelUpload st data
      = updateModelStatus
          { st with
            uploadExpectedSize := listU32 data 1
            uploadExpectedCrc := listU32 data 5
            uploadNumClasses := data.getD 9 0 % 256 }
          UPLOAD_ERROR 0 STATUS_ERROR_SIZE := by
    unfold handleModelUpload
    rw [if_neg h0, if_pos hcmd]
    unfold handleStart
    rw [if_neg (by omega : ¬ data.length < 10)]
    dsimp only
    rw [if_pos hsz]
  refine ⟨?_, ?_, ?_, ?_, ?_, ?_, ?_⟩
  · rw [hstep]; rfl
  · rw [hstep]; rfl
  · rw [hstep]; rfl
  · rw [hstep]; rfl
  · rw [hstep]; rfl
  · rw [hstep]; rfl
  · intro q hq
    have h := nonStart_preserves_globals (handleModelUpload st data) q hq
    rw [hstep] at h ⊢
    exact h

/-- Witness for C10: the concrete oversize Start payload (declared size
85001) against the initial state, followed by a Cancel. -/
theorem C10_witness :
    oversizeStartPayload.getD 0 0 % 256 = 1 ∧
    10 ≤ oversizeStartPayload.length ∧
    MAX_MODEL_SIZE < listU32 oversizeStartPayload 1 ∧
    (handleModelUpload initialMainState oversizeStartPayload).lastStatus
      = (UPLOAD_ERROR, 0, STATUS_ERROR_SIZE) ∧
    (handleModelUpload initialMainState oversizeStartPayload).uploadExpectedSize
      = listU32 oversizeStartPayload 1 ∧
    (handleModelUpload
        (handleModelUpload initialMainState oversizeStartPayload)
        [4]).uploadExpectedSize = listU32 oversizeStartPayload 1 := by
  have hcmd : oversizeStartPayload.getD 0 0 % 256 = 1 := by decide
  have hlen : 10 ≤ oversizeStartPayload.length := by decide
  have hsz : MAX_MODEL_SIZE < listU32 oversizeStartPayload 1 := by decide
  have h := C10_size_reject_after_metadata_overwrite initialMainState
    oversizeStartPayload hcmd hlen hsz
  exact ⟨hcmd, hlen, hsz, h.1, h.2.1,
    (h.2.2.2.2.2.2 [4] (by decide)).1⟩

-- ============================================================================
-- C7 — Start command validation
-- ============================================================================

/-- C7: Start-command validation. A payload shorter than the 10-byte fixed
header is rejected with `FormatError`; a declared size above
`MAX_MODEL_SIZE` (85000) is rejected with `SizeError`; a label segment in
which some declared label's remaining bytes contain no null terminator
(the label parser returning failure — it inspects only indices below the
payload length, so it never reads past the payload) is rejected with
`FormatError`; otherwise the status becomes `Receiving` and the session's
upload state machine is in `Receiving`. -/
theorem C7_start_validation (st : MainState) (data : List Nat)
    (hcmd : data.getD 0 0 % 256 = 1) :
    (data.length < 10 →
      (handleModelUpload st data).lastStatus
        = (UPLOAD_ERROR, 0, STATUS_ERROR_FORMAT)) ∧
    (10 ≤ data.length → MAX_MODEL_SIZE < listU32 data 1 →
      (handleModelUpload st data).lastStatus
        = (UPLOAD_ERROR, 0, STATUS_ERROR_SIZE)) ∧
    (10 ≤ data.length → listU32 data 1 ≤ MAX_MODEL_SIZE →
      (parseLabels data data.length (data.getD 9 0 % 256) 0 10
        (beginModelUpload st.flash (listU32 data 1)
          (data.getD 9 0 % 256))).2 = false →
      (handleModelUpload st data).lastStatus
        = (UPLOAD_ERROR, 0, STATUS_ERROR_FORMAT)) ∧
    (10 ≤ data.length → listU32 data 1 ≤ MAX_MODEL_SIZE →
      (parseLabels data data.length (data.getD 9 0 % 256) 0 10
        (beginModelUpload st.flash (listU32 data 1)
          (data.getD 9 0 % 256))).2 = true →
      (handleModelUpload st data).lastStatus
        = (UPLOAD_RECEIVING, 0, STATUS_RECEIVING) ∧
      (handleModelUpload st data).flash.uploadState = UPLOAD_RECEIVING) := by
  have h0 : ¬ data.length < 1 := by
    cases data with
    | nil => simp at hcmd
    | cons a l => simp
  have hdispatch : handleModelUpload st data = handleStart st data := by
    unfold handleModelUpload
    rw [if_neg h0, if_pos hcmd]
  refine ⟨?_, ?_, ?_, ?_⟩
  · intro hshort
    rw [hdispatch]
    unfold handleStart
    rw [if_pos hshort]
    rfl
  · intro hlen hsz
    rw [hdispatch]
    unfold handleStart
    rw [if_neg (by omega : ¬ data.length < 10)]
    dsimp only
    rw [if_pos hsz]
    rfl
  · intro hlen hsz hparse
    rw [hdispatch]
    unfold handleStart
    rw [if_neg (by omega : ¬ data.length < 10)]
    dsimp only
    rw [if_neg (by omega : ¬ MAX_MODEL_SIZE < listU32 data 1)]
    rw [hparse]
    rfl
  · intro hlen hsz hparse
    rw [hdispatch]
    unfold handleStart
    rw [if_neg (by omega : ¬ data.length < 10)]
    dsimp only
    rw [if_neg (by omega : ¬ MAX_MODEL_SIZE < listU32 data 1)]
    rw [hparse]
    refine ⟨rfl, ?_⟩
    dsimp only [updateModelStatus]
    exact (parseLabels_preserves data data.length (data.getD 9 0 % 256) 0 10
      (beginModelUpload st.flash (listU32 data 1) (data.getD 9 0 % 256))).1

/-- Witness for C7: the four concrete Start payloads — too short, oversize,
unterminated second label, and a well-formed single-label payload. -/
theorem C7_witness :
    (handleModelUpload initialMainState shortStartPayload).lastStatus
      = (UPLOAD_ERROR, 0, STATUS_ERROR_FORMAT) ∧
    (handleModelUpload initialMainState oversizeStartPayload).lastStatus
      = (UPLOAD_ERROR, 0, STATUS_ERROR_SIZE) ∧
    (handleModelUpload initialMainState badLabelStartPayload).lastStatus
      = (UPLOAD_ERROR, 0, STATUS_ERROR_FORMAT) ∧
    (handleModelUpload initialMainState goodStartPayload).lastStatus
      = (UPLOAD_RECEIVING, 0, STATUS_RECEIVING) ∧
    (handleModelUpload initialMainState goodStartPayload).flash.uploadState
      = UPLOAD_RECEIVING := by
  have h1 := (C7_start_validation initialMainState shortStartPayload
    (by decide)).1 (by decide)
  have h2 := (C7_start_validation initialMainState oversizeStartPayload
    (by decide)).2.1 (by decide) (by decide)
  have h3 := (C7_start_validation initialMainState badLabelStartPayload
    (by decide)).2.2.1 (by decide) (by decide) (by decide)
  have h4 := (C7_start_validation initialMainState goodStartPayload
    (by decide)).2.2.2 (by decide) (by decide) (by decide)
  exact ⟨h1, h2, h3, h4.1, h4.2⟩

-- ============================================================================
-- C2 — Cancel does not reset the upload state machine (code bug)
-- ============================================================================

/-- C2 (code bug, demonstrated at a concrete input): after a valid Start
the session is `Receiving`; processing the Cancel command `[0x04]` writes
a status record claiming `Idle`, but the handler (main.cpp:289-293) calls
no store operation, so the whole store — upload state machine, partial
buffer, session metadata — is left bit-for-bit unchanged:
`getUploadState()` still reports `Receiving`, not `Idle` (and the main
loop's gate at main.cpp:433 therefore keeps skipping sensor sampling). -/
theorem C2_cancel_leaves_state_receiving :
    getUploadState (handleModelUpload initialMainState
      startPayload16).flash = UPLOAD_RECEIVING ∧
    (handleModelUpload (handleModelUpload initialMainState startPayload16)
      [4]).flash
      = (handleModelUpload initialMainState startPayload16).flash ∧
    getUploadState (handleModelUpload
      (handleModelUpload initialMainState startPayload16) [4]).flash
      = UPLOAD_RECEIVING ∧
    getUploadState (handleModelUpload
      (handleModelUpload initialMainState startPayload16) [4]).flash
      ≠ UPLOAD_IDLE ∧
    (handleModelUpload (handleModelUpload initialMainState startPayload16)
      [4]).lastStatus = (UPLOAD_IDLE, 0, STATUS_READY) := by
  refine ⟨rfl, rfl, rfl, by decide, rfl⟩

-- ============================================================================
-- C3 — failed uploads leave the committed model and the engine untouched
-- ============================================================================

/-- Lemma: `receiveModelChunk` never touches the committed model. -/
theorem receiveModelChunk_stored (fl : FlashState) (d : List Nat)
    (len off : Nat) :
    (receiveModelChunk fl d len off).1.stored = fl.stored := by
  unfold receiveModelChunk
  split <;> rfl

/-- A `finalizeModelUpload` that does not report `STATUS_SUCCESS` leaves
the committed model unchanged. -/
theorem finalize_not_success_stored (fl : FlashState) (c : Nat)
    (h : (finalizeModelUpload fl c).2 ≠ STATUS_SUCCESS) :
    (finalizeModelUpload fl c).1.stored = fl.stored := by
  unfold finalizeModelUpload at h ⊢
  dsimp only at h ⊢
  split at h
  · split
    · rfl
    · rfl
  · split at h
    · exact absurd rfl h
    · split
      · simp_all
      · rfl

/-- A model committed by a successful `finalizeModelUpload` passed its
header checks, so the engine's `loadModel` accepts it. -/
theorem loadModel_success_of_headerOk (nn : SimpleNN) (m : SimpleNNModel)
    (h : finishHeaderOk m = true) : (nn.loadModel m).2 = true := by
  simp only [finishHeaderOk, decide_eq_true_eq] at h
  obtain ⟨h1, h2, h3, h4, h5⟩ := h
  unfold SimpleNN.loadModel
  rw [if_neg (by simp [h1]), if_neg (by simp [h2]), if_neg (by simp [h3]),
    if_neg (by omega : ¬ (m.numClasses < 1 ∨ m.numClasses > NN_MAX_CLASSES))]

/-- After a successful `finalizeModelUpload`, `reloadModel` succeeds. -/
theorem finalize_success_reload (fl : FlashState) (c : Nat) (nn : SimpleNN)
    (h : (finalizeModelUpload fl c).2 = STATUS_SUCCESS) :
    (reloadModel (finalizeModelUpload fl c).1 nn).2 = true := by
  unfold finalizeModelUpload at h ⊢
  dsimp only at h ⊢
  split at h
  · exact absurd h (by simp [STATUS_ERROR_CRC, STATUS_SUCCESS])
  · rename_i hcrc
    rw [if_neg hcrc]
    split at h
    · rename_i hdr
      rw [if_pos hdr]
      exact loadModel_success_of_headerOk nn _ hdr
    · exact absurd h (by simp [STATUS_ERROR_FORMAT, STATUS_SUCCESS])

/-- A single upload command whose resulting status is not `STATUS_SUCCESS`
preserves the committed model and the inference engine. -/
theorem step_not_success_preserves (st : MainState) (p : List Nat)
    (h : (handleModelUpload st p).lastStatus.2.2 ≠ STATUS_SUCCESS) :
    (handleModelUpload st p).flash.stored = st.flash.stored ∧
    (handleModelUpload st p).nn = st.nn := by
  unfold handleModelUpload at h ⊢
  by_cases h0 : p.length < 1
  · rw [if_pos h0]; exact ⟨rfl, rfl⟩
  · rw [if_neg h0] at h ⊢
    by_cases h1 : p.getD 0 0 % 256 = 1
    · rw [if_pos h1]
      unfold handleStart
      by_cases hs : p.length < 10
      · rw [if_pos hs]; exact ⟨rfl, rfl⟩
      · rw [if_neg hs]
        dsimp only
        by_cases hz : MAX_MODEL_SIZE < listU32 p 1
        · rw [if_pos hz]; exact ⟨rfl, rfl⟩
        · rw [if_neg hz]
          split
          · exact ⟨(parseLabels_preserves p p.length (p.getD 9 0 % 256) 0 10
              (beginModelUpload st.flash (listU32 p 1)
                (p.getD 9 0 % 256))).2, rfl⟩
          · exact ⟨(parseLabels_preserves p p.length (p.getD 9 0 % 256) 0 10
              (beginModelUpload st.flash (listU32 p 1)
                (p.getD 9 0 % 256))).2, rfl⟩
    · rw [if_neg h1] at h ⊢
      by_cases h2 : p.getD 0 0 % 256 = 2
      · rw [if_pos h2]
        unfold handleChunk
        by_cases hl : p.length < 5
        · rw [if_pos hl]; exact ⟨rfl, rfl⟩
        · rw [if_neg hl]
          dsimp only
          split
          · exact ⟨receiveModelChunk_stored st.flash (p.drop 5)
              (p.length - 5) (listU32 p 1), rfl⟩
          · exact ⟨receiveModelChunk_stored st.flash (p.drop 5)
              (p.length - 5) (listU32 p 1), rfl⟩
      · rw [if_neg h2] at h ⊢
        by_cases h3 : p.getD 0 0 % 256 = 3
        · rw [if_pos h3] at h ⊢
          unfold handleFinish at h ⊢
          dsimp only at h ⊢
          by_cases hr : (finalizeModelUpload st.flash st.uploadExpectedCrc).2
              = STATUS_SUCCESS
          · rw [if_pos hr] at h ⊢
            rw [if_pos (finalize_success_reload st.flash
              st.uploadExpectedCrc st.nn hr)] at h
            exact absurd rfl h
          · rw [if_neg hr]
            exact ⟨finalize_not_success_stored st.flash
              st.uploadExpectedCrc hr, rfl⟩
        · rw [if_neg h3]
          by_cases h4 : p.getD 0 0 % 256 = 4
          · rw [if_pos h4]; exact ⟨rfl, rfl⟩
          · rw [if_neg h4]; exact ⟨rfl, rfl⟩

/-- Folding commands preserves the committed model and the engine when no
command along the run reports `STATUS_SUCCESS`. -/
theorem runCommands_noSuccess_preserves :
    ∀ (ps : List (List Nat)) (st : MainState), noSuccessRun st ps →
      (runCommands st ps).flash.stored = st.flash.stored ∧
      (runCommands st ps).nn = st.nn := by
  intro ps
  induction ps with
  | nil => intro st _; exact ⟨rfl, rfl⟩
  | cons p ps ih =>
    intro st h
    obtain ⟨h1, h2⟩ := h
    have hstep := step_not_success_preserves st p h1
    have hrest := ih (handleModelUpload st p) h2
    exact ⟨hrest.1.trans hstep.1, hrest.2.trans hstep.2⟩

/-- C3: an upload command sequence that never commits (no command reports
`STATUS_SUCCESS` — in particular any failed upload attempt, whose statuses
are `FormatError`/`SizeError`/`CrcError` or progress reports) leaves the
previously active model untouched and usable: the committed model record
(bytes, size, labels), `hasStoredModel()`, and the inference engine's
loaded model are identical before and after. -/
theorem C3_failed_upload_preserves_model (st : MainState)
    (ps : List (List Nat)) (h : noSuccessRun st ps) :
    (runCommands st ps).flash.stored = st.flash.stored ∧
    hasStoredModel (runCommands st ps).flash = hasStoredModel st.flash ∧
    (runCommands st ps).nn = st.nn := by
  have hp := runCommands_noSuccess_preserves ps st h
  refine ⟨hp.1, ?_, hp.2⟩
  unfold hasStoredModel
  rw [hp.1]

set_option maxRecDepth 100000 in
/-- Witness for C3: a concrete failed upload against the initial state — a
well-formed Start, then a Finish whose CRC-32 check fails
(`STATUS_ERROR_CRC`); the stored model (none) and the engine are
untouched. -/
theorem C3_witness :
    noSuccessRun initialMainState [goodStartPayload, [3]] ∧
    ((runCommands initialMainState
        [goodStartPayload, [3]]).lastStatus.2.2 = STATUS_ERROR_CRC) ∧
    (runCommands initialMainState [goodStartPayload, [3]]).flash.stored
      = initialMainState.flash.stored ∧
    hasStoredModel (runCommands initialMainState
        [goodStartPayload, [3]]).flash
      = hasStoredModel initialMainState.flash ∧
    (runCommands initialMainState [goodStartPayload, [3]]).nn
      = initialMainState.nn := by
  have hns : noSuccessRun initialMainState [goodStartPayload, [3]] :=
    ⟨by decide, by decide, trivial⟩
  have h := C3_failed_upload_preserves_model initialMainState
    [goodStartPayload, [3]] hns
  exact ⟨hns, by decide, h.1, h.2.1, h.2.2⟩

-- ============================================================================
-- C8 — crc8 is CRC-8/MAXIM
-- ============================================================================

/-- One inner-loop iteration of `crc8` equals the reference per-bit update
on the current low bit, paired with the shifted byte. -/
theorem crc8Step_eq (c d : Nat) :
    crc8Step (c, d) = (crcMaximBit c (d &&& 1), d >>> 1) := by
  unfold crc8Step crcMaximBit
  have h : (c ^^^ d) &&& 1 = (c ^^^ (d &&& 1)) &&& 1 := by
    rw [Nat.and_xor_distrib_right, Nat.and_xor_distrib_right, Nat.and_assoc]
    norm_num
  simp only []
  rw [h]

/-- Unrolling `crc8`'s inner loop `n` times from `(c, d)` consumes the `n`
lowest bits of `d` through the reference per-bit update. -/
theorem crc8_bits_fold (d : Nat) : ∀ (n : Nat) (c : Nat),
    (List.range n).foldl (fun acc _ => crc8Step acc) (c, d)
      = (((List.range n).map (fun i => d >>> i &&& 1)).foldl crcMaximBit c,
         d >>> n) := by
  intro n
  induction n with
  | zero => intro c; simp
  | succ n ih =>
    intro c
    rw [List.range_succ, List.foldl_append, List.map_append,
      List.foldl_append, ih c]
    simp only [List.foldl_cons, List.foldl_nil, List.map_cons, List.map_nil]
    rw [crc8Step_eq]
    rw [show d >>> n >>> 1 = d >>> (n + 1) from (Nat.shiftRight_add d n 1).symm]

/-- The byte loop of `crc8` equals the reference bit-stream fold over the
byte's eight LSB-first bits. -/
theorem crc8Byte_eq_bits (c b : Nat) (hb : b < 256) :
    crc8Byte c b = (byteBitsLSB b).foldl crcMaximBit c := by
  unfold crc8Byte byteBitsLSB
  rw [Nat.mod_eq_of_lt hb, crc8_bits_fold b 8 c]

/-- Lemma: `crc8`'s fold agrees with the reference bit-stream fold from any
starting state, for byte-valued input. -/
theorem crc8_fold_ref : ∀ (l : List Nat) (c : Nat), (∀ b ∈ l, b < 256) →
    l.foldl crc8Byte c = ((l.map byteBitsLSB).flatten).foldl crcMaximBit c := by
  intro l
  induction l with
  | nil => intro c _; rfl
  | cons b bs ih =>
    intro c hb
    simp only [List.foldl_cons, List.map_cons, List.flatten_cons,
      List.foldl_append]
    rw [← crc8Byte_eq_bits c b (hb b (by simp))]
    exact ih (crc8Byte c b) (fun x hx => hb x (by simp [hx]))

set_option maxRecDepth 100000 in
/-- C8: `crc8` computes CRC-8/MAXIM — it agrees with the reference
bit-stream definition (polynomial 0x8C, LSB-first, seed 0x00) on every
byte sequence, matches the standard CRC-8/MAXIM check value 0xA1 on
"123456789", and the sensor packet's 1-byte trailer is `crc8` over exactly
the packet's first 16 bytes. (It is a pure function of its input by
construction, hence deterministic and side-effect free.) -/
theorem C8_crc8_is_maxim :
    (∀ data : List Nat, (∀ b ∈ data, b < 256) →
      crc8 data = crc8MaximRef data) ∧
    crc8 [0x31, 0x32, 0x33, 0x34, 0x35, 0x36, 0x37, 0x38, 0x39] = 0xA1 ∧
    (∀ (ax ay az gx gy gz : Int) (sq ts : Nat),
      (lsm9ds1Packet ax ay az gx gy gz sq ts).length = 17 ∧
      (lsm9ds1Packet ax ay az gx gy gz sq ts).getD 16 0
        = crc8 ((lsm9ds1Packet ax ay az gx gy gz sq ts).take 16)) := by
  refine ⟨?_, by decide, ?_⟩
  · intro data h
    exact crc8_fold_ref data 0 h
  · intro ax ay az gx gy gz sq ts
    have hlen : (sensorPacketBody ax ay az gx gy gz sq ts).length = 16 := by
      simp [sensorPacketBody, int16Bytes, uint16Bytes]
    unfold lsm9ds1Packet
    dsimp only
    constructor
    · simp [hlen]
    · rw [List.getD_append_right _ _ _ _ (le_of_eq hlen),
        List.take_left' hlen, hlen]
      simp

/-- Witness for C8's universally quantified part at a concrete byte list. -/
theorem C8_witness :
    (∀ b ∈ [0x31, 0xFF, 0x00, 0x8C], b < 256) ∧
    crc8 [0x31, 0xFF, 0x00, 0x8C] = crc8MaximRef [0x31, 0xFF, 0x00, 0x8C] :=
  ⟨by decide, C8_crc8_is_maxim.1 [0x31, 0xFF, 0x00, 0x8C] (by decide)⟩

-- ============================================================================
-- C6 — zero model ⇒ uniform distribution, argmax 0
-- ============================================================================

/-- The running-maximum fold never moves off a constant value. -/
theorem foldl_max_const (values : Nat → ℝ) (v : ℝ) (hv : ∀ i, values i = v) :
    ∀ l : List Nat,
      l.foldl (fun m i => if values i > m then values i else m) v = v := by
  intro l
  induction l with
  | nil => rfl
  | cons a l ih =>
    rw [List.foldl_cons]
    have : (if values a > v then values a else v) = v := by
      rw [hv a, if_neg (lt_irrefl v)]
    rw [this, ih]

/-- Lemma: `maxLoop` of a constant family is that constant. -/
theorem maxLoop_const (values : Nat → ℝ) (v : ℝ) (hv : ∀ i, values i = v)
    (size : Nat) : maxLoop values size = v := by
  unfold maxLoop
  rw [hv 0]
  exact foldl_max_const values v hv _

/-- The first-maximum-wins fold never moves off an accumulator whose value
component already equals the constant: ties do not advance the index. -/
theorem foldl_argmax_const (values : Nat → ℝ) (v : ℝ)
    (hv : ∀ i, values i = v) :
    ∀ (l : List Nat) (acc : Nat × ℝ), acc.2 = v →
      l.foldl (fun acc i => if values i > acc.2 then (i, values i) else acc)
        acc = acc := by
  intro l
  induction l with
  | nil => intro acc _; rfl
  | cons a l ih =>
    intro acc hacc
    rw [List.foldl_cons]
    have : (if values a > acc.2 then (a, values a) else acc) = acc := by
      rw [hv a, hacc, if_neg (lt_irrefl v)]
    rw [this, ih acc hacc]

/-- Lemma: `argmax` of a constant family is index 0 (lowest-index tie-break). -/
theorem argmax_const (values : Nat → ℝ) (v : ℝ) (hv : ∀ i, values i = v)
    (size : Nat) : argmax values size = 0 := by
  unfold argmax
  rw [foldl_argmax_const values v hv _ (0, values 0) (hv 0)]

/-- A dense layer with zero weights and biases outputs zero everywhere
(with or without ReLU). -/
theorem denseLayer_zero (input : Nat → ℝ) (n : Nat) (r : Bool) :
    denseLayer input (fun _ => 0) (fun _ => 0) n r = fun _ => 0 := by
  funext o
  unfold denseLayer relu
  cases r <;> simp

/-- Lemma: `softmax` of the all-zero score family is `1 / size` everywhere. -/
theorem softmax_zero_uniform (n i : Nat) :
    softmax (fun _ => 0) n i = 1 / n := by
  unfold softmax
  rw [maxLoop_const (fun _ => 0) 0 (fun _ => rfl) n]
  simp [Real.exp_zero]

/-- C6: loading any structurally valid model whose weights and biases are
all zero (numClasses = n ∈ 1..8) succeeds, and `predict` on the all-zero
input yields the uniform distribution (`1 / n` for every class below `n`)
and argmax 0 (the tie resolves to the lowest index). -/
theorem C6_zero_model_uniform (m : SimpleNNModel) (n : Nat)
    (hmagic : m.magic = SIMPLE_NN_MAGIC) (hin : m.inputSize = NN_INPUT_SIZE)
    (hhid : m.hiddenSize = NN_HIDDEN_SIZE) (hn : m.numClasses = n)
    (h1 : 1 ≤ n) (h8 : n ≤ NN_MAX_CLASSES)
    (hw1 : ∀ k, m.hiddenWeights k = 0) (hb1 : ∀ k, m.hiddenBias k = 0)
    (hw2 : ∀ k, m.outputWeights k = 0) (hb2 : ∀ k, m.outputBias k = 0) :
    (SimpleNN.init.loadModel m).2 = true ∧
    (∀ i < n,
      ((SimpleNN.init.loadModel m).1.predict (fun _ => 0)).2.2 i = 1 / n) ∧
    ((SimpleNN.init.loadModel m).1.predict (fun _ => 0)).2.1 = 0 := by
  have e1 : m.hiddenWeights = (fun _ => (0 : ℝ)) := funext hw1
  have e2 : m.hiddenBias = (fun _ => (0 : ℝ)) := funext hb1
  have e3 : m.outputWeights = (fun _ => (0 : ℝ)) := funext hw2
  have e4 : m.outputBias = (fun _ => (0 : ℝ)) := funext hb2
  have hload : SimpleNN.init.loadModel m =
      ({ modelLoaded := true
         numClasses := n
         hiddenWeights := fun _ => 0
         hiddenBias := fun _ => 0
         outputWeights := fun _ => 0
         outputBias := fun _ => 0
         labels := m.labels
         lastConfidence := SimpleNN.init.lastConfidence }, true) := by
    unfold SimpleNN.loadModel
    rw [if_neg (by simp [hmagic]), if_neg (by simp [hin]),
      if_neg (by simp [hhid]),
      if_neg (by omega : ¬ (m.numClasses < 1 ∨ m.numClasses > NN_MAX_CLASSES))]
    rw [e1, e2, e3, e4, hn]
  rw [hload]
  have hpredict :
      (SimpleNN.predict
        { modelLoaded := true
          numClasses := n
          hiddenWeights := fun _ => 0
          hiddenBias := fun _ => 0
          outputWeights := fun _ => 0
          outputBias := fun _ => 0
          labels := m.labels
          lastConfidence := SimpleNN.init.lastConfidence } (fun _ => 0)).2
      = ((argmax (softmax (fun _ => 0) n) n : Int),
          softmax (fun _ => 0) n) := by
    unfold SimpleNN.predict
    rw [if_neg (by simp)]
    dsimp only
    rw [denseLayer_zero]
  refine ⟨rfl, ?_, ?_⟩
  · intro i _
    have : ((argmax (softmax (fun _ => 0) n) n : Int),
        softmax (fun _ => 0) n).2 i = 1 / n := softmax_zero_uniform n i
    rw [hpredict]
    exact this
  · rw [hpredict]
    show ((argmax (softmax (fun _ => 0) n) n : Int)) = 0
    rw [argmax_const (softmax (fun _ => 0) n) (1 / n)
      (fun i => softmax_zero_uniform n i) n]
    rfl

/-- Witness for C6 at the concrete zero-weight 3-class model. -/
theorem C6_witness :
    (1 ≤ 3 ∧ 3 ≤ NN_MAX_CLASSES) ∧
    (SimpleNN.init.loadModel (zeroModel 3)).2 = true ∧
    ((SimpleNN.init.loadModel (zeroModel 3)).1.predict (fun _ => 0)).2.2 0
      = 1 / 3 ∧
    ((SimpleNN.init.loadModel (zeroModel 3)).1.predict (fun _ => 0)).2.1
      = 0 := by
  have h := C6_zero_model_uniform (zeroModel 3) 3 rfl rfl rfl rfl
    (by norm_num) (by norm_num [NN_MAX_CLASSES])
    (fun _ => rfl) (fun _ => rfl) (fun _ => rfl) (fun _ => rfl)
  refine ⟨⟨by norm_num, by norm_num [NN_MAX_CLASSES]⟩, h.1, ?_, h.2.2⟩
  have := h.2.1 0 (by norm_num)
  simpa using this
